import Mathlib

/-!
Shallow embedding of the SignLingoKids renderer wrapper
(`src/app/services/three-renderer.service.ts`, class `ThreeRenderer`) and of
the presentation screen (`src/app/tabs/home/home.page.ts`, class `HomePage`).

Vectors are triples of rationals; the bounding box of a loaded scene node is
represented by the content's axis-aligned box expressed in the node's local
frame (fields `bmin`/`bmax` of `Object3D`), so that `Box3.setFromObject` on a
node at position `p` and scale `s` yields the box whose corners are
`p + s * bmin` and `p + s * bmax` componentwise (with per-component min/max to
stay correct for negative scales).  Asynchronous asset loads are passed in as
an `Except String GLTF` value (`Except.error` = fetch/parse failure), and each
animation action object is identified by a numeric handle allocated from a
counter, stored in an association list.
-/

namespace SignLingoKids

/-- A 3D vector with rational components (models `THREE.Vector3`). -/
structure Vec3 where
  x : ℚ
  y : ℚ
  z : ℚ
deriving Repr, DecidableEq

namespace Vec3

def zero : Vec3 := ⟨0, 0, 0⟩

def one : Vec3 := ⟨1, 1, 1⟩

/-- Componentwise addition. -/
def add (a b : Vec3) : Vec3 := ⟨a.x + b.x, a.y + b.y, a.z + b.z⟩

/-- Componentwise subtraction (models `Vector3.sub`). -/
def sub (a b : Vec3) : Vec3 := ⟨a.x - b.x, a.y - b.y, a.z - b.z⟩

/-- Componentwise (Hadamard) product, used to apply a scale to a point. -/
def hmul (a b : Vec3) : Vec3 := ⟨a.x * b.x, a.y * b.y, a.z * b.z⟩

/-- Uniform vector (models `Vector3.setScalar` / `Vector3.set(s,s,s)`). -/
def splat (s : ℚ) : Vec3 := ⟨s, s, s⟩

/-- Scalar multiple of a vector. -/
def smul (s : ℚ) (a : Vec3) : Vec3 := ⟨s * a.x, s * a.y, s * a.z⟩

end Vec3

/-- An axis-aligned bounding box (models `THREE.Box3`). -/
structure Box3 where
  min : Vec3
  max : Vec3
deriving Repr, DecidableEq

namespace Box3

/-- `Box3.getCenter`: midpoint of min and max. -/
def getCenter (b : Box3) : Vec3 :=
  ⟨(b.min.x + b.max.x) / 2, (b.min.y + b.max.y) / 2, (b.min.z + b.max.z) / 2⟩

/-- `Box3.getSize`: componentwise `max - min`. -/
def getSize (b : Box3) : Vec3 :=
  ⟨b.max.x - b.min.x, b.max.y - b.min.y, b.max.z - b.min.z⟩

end Box3

/-- A scene-graph node owning some content (models the `THREE.Object3D`
returned by the loader as `gltf.scene`).  `bmin`/`bmax` is the axis-aligned
bounding box of the node's content expressed in the node's own local frame,
before the node's `position`/`scale` are applied. -/
structure Object3D where
  position : Vec3
  scale : Vec3
  bmin : Vec3
  bmax : Vec3
  visible : Bool
deriving Repr, DecidableEq

/-- `new THREE.Box3().setFromObject(model)`: the world-space box of the node's
content under the node's own translation and scale.  Per component the two
candidate corner coordinates are `scale*bmin` and `scale*bmax`; min/max of the
pair keeps the box well-ordered for any sign of the scale. -/
def setFromObject (m : Object3D) : Box3 :=
  { min := ⟨m.position.x + min (m.scale.x * m.bmin.x) (m.scale.x * m.bmax.x),
            m.position.y + min (m.scale.y * m.bmin.y) (m.scale.y * m.bmax.y),
            m.position.z + min (m.scale.z * m.bmin.z) (m.scale.z * m.bmax.z)⟩
    max := ⟨m.position.x + max (m.scale.x * m.bmin.x) (m.scale.x * m.bmax.x),
            m.position.y + max (m.scale.y * m.bmin.y) (m.scale.y * m.bmax.y),
            m.position.z + max (m.scale.z * m.bmin.z) (m.scale.z * m.bmax.z)⟩ }

/-- An animation clip embedded in a glTF asset (models `THREE.AnimationClip`
as far as the service observes it: its name and duration). -/
structure AnimationClip where
  name : String
  duration : ℚ
deriving Repr, DecidableEq

/-- A parsed glTF asset as the service consumes it: the scene node's content
box (the loader always returns `gltf.scene` with identity transform) and the
list of embedded animation clips. -/
structure GLTF where
  bmin : Vec3
  bmax : Vec3
  animations : List AnimationClip
deriving Repr, DecidableEq

/-- The observable state of one `THREE.AnimationAction` handle.
`fadeDir = some (true, d)` records a scheduled fade-in over `d` seconds,
`some (false, d)` a scheduled fade-out; `none` means no fade is scheduled. -/
structure AnimationAction where
  clipName : String
  time : ℚ
  timeScale : ℚ
  weight : ℚ
  clampWhenFinished : Bool
  loopOnce : Bool
  running : Bool
  fadeDir : Option (Bool × ℚ)
deriving Repr, DecidableEq

namespace AnimationAction

/-- `AnimationAction.reset()`: time back to zero and any scheduled fade
cancelled (`stopFading`). -/
def reset (a : AnimationAction) : AnimationAction :=
  { a with time := 0, fadeDir := none }

/-- `AnimationAction.stop()`: deactivates the action, then calls `reset()`. -/
def stopA (a : AnimationAction) : AnimationAction :=
  { a with running := false, time := 0, fadeDir := none }

/-- `setEffectiveTimeScale`. -/
def setEffectiveTimeScale (v : ℚ) (a : AnimationAction) : AnimationAction :=
  { a with timeScale := v }

/-- `setEffectiveWeight`. -/
def setEffectiveWeight (v : ℚ) (a : AnimationAction) : AnimationAction :=
  { a with weight := v }

/-- `fadeIn(d)`: schedules a fade from weight 0 to 1 over `d` seconds. -/
def fadeIn (d : ℚ) (a : AnimationAction) : AnimationAction :=
  { a with fadeDir := some (true, d) }

/-- `fadeOut(d)`: schedules a fade from the current weight to 0 over `d`. -/
def fadeOut (d : ℚ) (a : AnimationAction) : AnimationAction :=
  { a with fadeDir := some (false, d) }

/-- `play()`: activates the action on its mixer. -/
def playA (a : AnimationAction) : AnimationAction :=
  { a with running := true }

end AnimationAction

/-- The action store: every `AnimationAction` object ever created by
`mixer.clipAction`, keyed by its allocation handle. -/
abbrev ActionStore := List (Nat × AnimationAction)

/-- Update the stored action with handle `id` in place. -/
def updAction (st : ActionStore) (id : Nat) (f : AnimationAction → AnimationAction) :
    ActionStore :=
  st.map fun p => if p.1 = id then (p.1, f p.2) else p

/-- The mutable state of the `ThreeRenderer` service instance. -/
structure RendererState where
  renderInitialized : Bool
  currentModel : Option Object3D
  hasMixer : Bool
  mixerTimeScale : ℚ
  /-- `private actions = new Map<string, AnimationAction>()`, with each action
  object represented by its handle into `store`. -/
  actions : List (String × Nat)
  store : ActionStore
  activeAction : Option Nat
  nextId : Nat
  aspect : ℚ
  controlsTarget : Vec3
deriving Repr, DecidableEq

/-- `JS Map.set` semantics on the registry: overwrite an existing key in
place, otherwise append at the end. -/
def mapSet (reg : List (String × Nat)) (k : String) (v : Nat) : List (String × Nat) :=
  match reg with
  | [] => [(k, v)]
  | (k', v') :: rest => if k' = k then (k, v) :: rest else (k', v') :: mapSet rest k v

/-- `disposeCurrentModel()`: stops the active action and every registered
action, clears the registry, drops the mixer (which owns the action objects)
and removes the model from the scene. -/
def disposeCurrentModel (s : RendererState) : RendererState :=
  match s.currentModel with
  | none => s
  | some _ =>
      { s with
        activeAction := none
        actions := []
        store := []
        hasMixer := false
        currentModel := none }

/-- The action object created by `mixer.clipAction(clip)` as configured in
`loadModel`: `clampWhenFinished = true`, `loop = LoopOnce`, not yet playing. -/
def freshClipAction (name : String) : AnimationAction :=
  { clipName := name, time := 0, timeScale := 1, weight := 1,
    clampWhenFinished := true, loopOnce := true, running := false,
    fadeDir := none }

/-- The per-clip loop of `loadModel`: for each embedded clip, create a fresh
action handle (`mixer.clipAction(clip)` on a freshly parsed clip object), set
`clampWhenFinished = true` and `loop = LoopOnce`, and register it under the
clip's name.  Returns the extended store, the registry and the next handle. -/
def registerClips : List AnimationClip → ActionStore → List (String × Nat) → Nat →
    ActionStore × List (String × Nat) × Nat
  | [], st, reg, nid => (st, reg, nid)
  | clip :: rest, st, reg, nid =>
      registerClips rest (st ++ [(nid, freshClipAction clip.name)])
        (mapSet reg clip.name nid) (nid + 1)

/-- `loadModel(url)`: disposes the previous model, then (if the asset loaded)
centers the node by subtracting the bounding-box center from its position,
rescales it uniformly to `1.5 / maxDim` when the largest box dimension is
positive, rebuilds the animation registry from the embedded clips and installs
the node as the current model.  A fetch/parse failure is surfaced as
`Except.error` with the loader's message, leaving the disposed state. -/
def loadModel (s : RendererState) (asset : Except String GLTF) :
    RendererState × Except String Object3D :=
  let s0 := disposeCurrentModel s
  match asset with
  | .error e => (s0, .error e)
  | .ok g =>
      let m0 : Object3D :=
        { position := Vec3.zero, scale := Vec3.one,
          bmin := g.bmin, bmax := g.bmax, visible := true }
      let box := setFromObject m0
      let size := box.getSize
      let center := box.getCenter
      let m1 := { m0 with position := m0.position.sub center }
      let maxDim := max size.x (max size.y size.z)
      let m2 := if 0 < maxDim then { m1 with scale := Vec3.splat (3 / 2 / maxDim) } else m1
      let s1 :=
        if g.animations.isEmpty then
          { s0 with actions := [], store := [], hasMixer := false }
        else
          let r := registerClips g.animations [] [] s0.nextId
          { s0 with hasMixer := true, store := r.1, actions := r.2.1, nextId := r.2.2 }
      ({ s1 with currentModel := some m2 }, .ok m2)

/-- `getClipNames()`: the registry's keys. -/
def getClipNames (s : RendererState) : List String :=
  s.actions.map Prod.fst

/-- `play(clipName, fadeSeconds)`: no-op when the name is unregistered;
otherwise fades out a different active action, then resets the target, sets
its effective time scale and weight to 1, fades it in, starts it and marks it
active. -/
def play (s : RendererState) (clipName : String) (fadeSeconds : ℚ) : RendererState :=
  match s.actions.lookup clipName with
  | none => s
  | some nid =>
      let s1 :=
        match s.activeAction with
        | some aid =>
            if aid ≠ nid then
              { s with store := updAction s.store aid (AnimationAction.fadeOut fadeSeconds) }
            else s
        | none => s
      let s2 :=
        { s1 with
          store := updAction s1.store nid fun a =>
            (((a.reset.setEffectiveTimeScale 1).setEffectiveWeight 1).fadeIn
              fadeSeconds).playA }
      { s2 with activeAction := some nid }

/-- `stop()`: stops the active action, if any, and clears the pointer. -/
def stopService (s : RendererState) : RendererState :=
  match s.activeAction with
  | none => { s with activeAction := none }
  | some aid =>
      { s with store := updAction s.store aid AnimationAction.stopA, activeAction := none }

/-- `setTimeScale(speed)`: sets the mixer's time scale when a mixer exists. -/
def setTimeScale (s : RendererState) (speed : ℚ) : RendererState :=
  if s.hasMixer then { s with mixerTimeScale := speed } else s

/-- The aspect-ratio expression of `resize`:
`Math.max(1e-6, width / Math.max(1, height))`. -/
def resizeAspect (width height : ℚ) : ℚ :=
  max (1 / 1000000) (width / max 1 height)

/-- `resize(width, height)`: early-returns before initialization, otherwise
stores the clamped aspect ratio. -/
def resize (s : RendererState) (width height : ℚ) : RendererState :=
  if s.renderInitialized then { s with aspect := resizeAspect width height } else s

/-- `centerModel()`: zeroes the model's position, recomputes its box, offsets
so the horizontal center is at the origin with the vertical midpoint raised by
half the height, retargets the controls, and replaces the scale with `3/maxDim`
when the largest dimension exceeds 3 or with `1/maxDim` when it is below 1. -/
def centerModel (s : RendererState) : RendererState :=
  match s.currentModel with
  | none => s
  | some m =>
      let m0 := { m with position := Vec3.zero }
      let box := setFromObject m0
      let center := box.getCenter
      let size := box.getSize
      let m1 :=
        { m0 with
          position := ⟨-center.x, -center.y + size.y * (1 / 2), -center.z⟩ }
      let maxDim := max size.x (max size.y size.z)
      let m2 :=
        if 3 < maxDim then { m1 with scale := Vec3.splat (3 / maxDim) }
        else if maxDim < 1 then { m1 with scale := Vec3.splat (1 / maxDim) }
        else m1
      { s with
        currentModel := some m2
        controlsTarget := ⟨0, size.y * (1 / 2), 0⟩ }

/-- The catch-block recovery of `playAnimationForExistingModel`: force the
model visible, and re-center when its vertical position is (JS-falsy) zero. -/
def recoverAfterActionFailure (s : RendererState) : RendererState :=
  match s.currentModel with
  | none => s
  | some m =>
      let s1 := { s with currentModel := some { m with visible := true } }
      if m.position.y = 0 then centerModel s1 else s1

/-- Stop every action registered in the map (`this.actions.forEach(a => a.stop())`). -/
def stopAllRegistered (reg : List (String × Nat)) (st : ActionStore) : ActionStore :=
  reg.foldl (fun acc p => updAction acc p.2 AnimationAction.stopA) st

/-- `playAnimationForExistingModel(actionUrl, fadeSeconds)`: fails when no
model is loaded; on a load failure or an asset without clips, runs the
recovery pass and rethrows.  Otherwise takes the first clip, lazily creates a
mixer, stops every registered action and the active action, creates a new
clamped play-once action, resets it, plays it at effective time scale 0.7 and
weight 1 (the `fadeSeconds` argument is never used), marks it active, restores
the position and scale captured before the load, and registers the clip's name
only if absent. -/
def playAnimationForExistingModel (s : RendererState) (asset : Except String GLTF)
    (fadeSeconds : ℚ) : RendererState × Except String Unit :=
  match s.currentModel with
  | none => (s, .error "No character model loaded")
  | some m =>
      match asset with
      | .error e => (recoverAfterActionFailure s, .error e)
      | .ok g =>
          match g.animations with
          | [] => (recoverAfterActionFailure s, .error "No animations found in action file")
          | clip :: _ =>
              let savedPosition := m.position
              let savedScale := m.scale
              let s1 := if s.hasMixer then s else { s with hasMixer := true }
              let s2 := { s1 with store := stopAllRegistered s1.actions s1.store }
              let s3 :=
                match s2.activeAction with
                | some aid =>
                    { s2 with
                      store := updAction s2.store aid AnimationAction.stopA
                      activeAction := none }
                | none => s2
              let nid := s3.nextId
              let newAction : AnimationAction :=
                ((({ clipName := clip.name, time := 0, timeScale := 1, weight := 1,
                     clampWhenFinished := true, loopOnce := true, running := false,
                     fadeDir := none : AnimationAction
                   }.reset.setEffectiveTimeScale (7 / 10)).setEffectiveWeight 1).playA)
              let s4 :=
                { s3 with
                  store := s3.store ++ [(nid, newAction)]
                  nextId := nid + 1
                  activeAction := some nid }
              let s5 :=
                { s4 with
                  currentModel := some { m with position := savedPosition, scale := savedScale } }
              let s6 :=
                if (s5.actions.lookup clip.name).isSome then s5
                else { s5 with actions := s5.actions ++ [(clip.name, nid)] }
              (s6, .ok ())

/-- `fixResourcePath`: absolute `http` URLs pass through; otherwise a leading
slash is stripped. -/
def fixResourcePath (actionUrl : String) : String :=
  if actionUrl.startsWith "http" then actionUrl
  else if actionUrl.startsWith "/" then actionUrl.drop 1 else actionUrl

/-- A catalogue entry (`interface AslSign` in `home.page.ts`). -/
structure AslSign where
  id : String
  label : String
  description : Option String
deriving Repr, DecidableEq

/-- The static sign catalogue (`aslSigns` field of `HomePage`). -/
def aslSigns : List AslSign :=
  [ { id := "Afraid", label := "Afraid",
      description := some "Sign for showing fear or being scared" },
    { id := "Afternoon", label := "Afternoon",
      description := some "Sign for showing Afternoon" },
    { id := "AirPlane", label := "AirPlane",
      description := some "Sign for showing Air Plane" },
    { id := "Ball", label := "Ball",
      description := some "Sign for showing Ball" } ]

/-- The per-sign asset path built in `playSign`. -/
def actionPath (signId : String) : String :=
  "assets/aslkidanimation/actions/" ++ signId ++ ".glb"

/-- The observable state of the `HomePage` component.  `loadCount` counts the
asset loads the screen has initiated (to express "no second load started"),
and `timerPending` records a scheduled 4-second `setTimeout`. -/
structure ScreenState where
  renderer : RendererState
  listName : List String
  selectedSign : Option String
  loading : Bool
  error : Option String
  characterLoaded : Bool
  isPlaying : Bool
  loadCount : Nat
  timerPending : Bool
deriving Repr, DecidableEq

/-- Field initializers of `HomePage` over a given renderer-service state. -/
def freshScreen (r : RendererState) : ScreenState :=
  { renderer := r, listName := [], selectedSign := none, loading := true,
    error := none, characterLoaded := false, isPlaying := false,
    loadCount := 0, timerPending := false }

/-- `initialize(canvas, width, height)` of the service: fresh scene, camera
with aspect `width/height`, controls targeting `(0,1,0)`. -/
def initRenderer (width height : ℚ) : RendererState :=
  { renderInitialized := true, currentModel := none, hasMixer := false,
    mixerTimeScale := 1, actions := [], store := [], activeAction := none,
    nextId := 0, aspect := width / height, controlsTarget := ⟨0, 1, 0⟩ }

/-- `ngAfterViewInit`: initializes the renderer, loads the base character
asset, and on success centers the model once, records the clip names and sets
`characterLoaded`; on failure stores the error message (falling back to a
default when the message is JS-falsy) — `loading` clears either way. -/
def ngAfterViewInit (baseAsset : Except String GLTF) (width height : ℚ) : ScreenState :=
  let st := freshScreen (initRenderer width height)
  match loadModel st.renderer baseAsset with
  | (r, .ok _) =>
      let r2 := centerModel r
      { st with
        renderer := r2
        listName := getClipNames r2
        characterLoaded := true
        loading := false }
  | (r, .error e) =>
      { st with
        renderer := r
        error := some (if e = "" then "Failed to load character model" else e)
        loading := false }

/-- `playSign(sign)`: returns immediately unless the character is loaded and
nothing is playing; otherwise flags `isPlaying`, clears the error, initiates
the action-asset load at the path derived from the sign id, and either
schedules the 4-second timer (success) or records the error string and clears
`isPlaying` (failure).  `world` maps a requested URL to the load's outcome. -/
def playSign (st : ScreenState) (sign : AslSign) (world : String → Except String GLTF) :
    ScreenState :=
  if st.characterLoaded = false ∨ st.isPlaying = true then st
  else
    let st1 :=
      { st with isPlaying := true, error := none, selectedSign := some sign.id,
                loadCount := st.loadCount + 1 }
    let asset := world (fixResourcePath (actionPath sign.id))
    match playAnimationForExistingModel st1.renderer asset (3 / 10) with
    | (r, .ok _) => { st1 with renderer := r, timerPending := true }
    | (r, .error _) =>
        { st1 with
          renderer := r
          error := some ("Failed to play sign: " ++ sign.id)
          isPlaying := false }

/-- The body of the `setTimeout` callback scheduled by `playSign`. -/
def playTimerFires (st : ScreenState) : ScreenState :=
  { st with isPlaying := false, timerPending := false }

/-- The bounding box a fresh `loadModel` sees: the asset's scene node carries
the loader's identity transform (position zero, scale one). -/
def gltfBox (g : GLTF) : Box3 :=
  setFromObject
    { position := Vec3.zero, scale := Vec3.one,
      bmin := g.bmin, bmax := g.bmax, visible := true }

/-- `Math.max(size.x, Math.max(size.y, size.z))`, the largest box dimension. -/
def maxDim3 (v : Vec3) : ℚ :=
  max v.x (max v.y v.z)

/-- Largest dimension of a fresh asset's bounding box. -/
def gltfMaxDim (g : GLTF) : ℚ :=
  maxDim3 (gltfBox g).getSize

/-- Largest dimension of the box `centerModel` computes: the model's box with
its position zeroed (box size does not depend on position). -/
def modelMaxDim (m : Object3D) : ℚ :=
  maxDim3 (setFromObject { m with position := Vec3.zero }).getSize

/-- The action object `playAnimationForExistingModel` ends up playing:
clamped, play-once, reset, effective time scale 0.7, effective weight 1,
running, with no fade scheduled. -/
def playActionRecord (name : String) : AnimationAction :=
  { clipName := name, time := 0, timeScale := 7 / 10, weight := 1,
    clampWhenFinished := true, loopOnce := true, running := true,
    fadeDir := none }

/-- A concrete renderer state with two registered idle/wave actions, the
second one active — used to evaluate the theorems on explicit inputs. -/
def demoPlayState : RendererState :=
  { initRenderer 1 1 with
    actions := [("Idle", 0), ("Wave", 1)],
    store := [(0, freshClipAction "Idle"), (1, freshClipAction "Wave")],
    activeAction := some 1,
    nextId := 2 }

/-- A concrete unit-cube asset with a single clip named `BallSign`. -/
def demoActionAsset : GLTF :=
  { bmin := Vec3.zero, bmax := ⟨1, 1, 1⟩,
    animations := [{ name := "BallSign", duration := 2 }] }

/-- A concrete renderer state holding a loaded unit-cube model. -/
def demoModelState : RendererState :=
  { initRenderer 1 1 with
    currentModel := some
      { position := Vec3.zero, scale := Vec3.one,
        bmin := Vec3.zero, bmax := ⟨1, 1, 1⟩, visible := true } }

/-- A concrete renderer state holding a model whose bounding box is a cube of
side 6 (so `centerModel` takes its scale-down branch). -/
def demoBigModelState : RendererState :=
  { initRenderer 1 1 with
    currentModel := some
      { position := Vec3.zero, scale := Vec3.one,
        bmin := Vec3.zero, bmax := ⟨6, 6, 6⟩, visible := true } }

/-- A concrete renderer state with a loaded model and a registry entry whose
name collides with the clip of `demoActionAsset`. -/
def demoDuplicateState : RendererState :=
  { initRenderer 1 1 with
    currentModel := some
      { position := Vec3.zero, scale := Vec3.one,
        bmin := Vec3.zero, bmax := ⟨1, 1, 1⟩, visible := true },
    actions := [("BallSign", 0)],
    store := [(0, freshClipAction "BallSign")],
    activeAction := some 0,
    nextId := 1 }

/-- A concrete ready screen state over the unit-cube model. -/
def demoScreenState : ScreenState :=
  { freshScreen demoModelState with characterLoaded := true, loading := false }

/-! ### Association-list lemmas -/

theorem lookup_mem {α β : Type} [BEq α] [LawfulBEq α] {l : List (α × β)} {k : α} {v : β}
    (h : l.lookup k = some v) : (k, v) ∈ l := by
  induction l with
  | nil => simp [List.lookup] at h
  | cons hd tl ih =>
      obtain ⟨a, b⟩ := hd
      rw [List.lookup] at h
      by_cases hk : k = a
      · subst hk
        simp only [beq_self_eq_true] at h
        cases h
        exact List.mem_cons_self _ _
      · have : (k == a) = false := beq_false_of_ne hk
        rw [this] at h
        exact List.mem_cons_of_mem _ (ih h)

theorem lookup_eq_none_of_not_mem_keys {α β : Type} [BEq α] [LawfulBEq α]
    {l : List (α × β)} {k : α} (h : k ∉ l.map Prod.fst) : l.lookup k = none := by
  induction l with
  | nil => rfl
  | cons hd tl ih =>
      obtain ⟨a, b⟩ := hd
      simp only [List.map_cons, List.mem_cons, not_or] at h
      rw [List.lookup, beq_false_of_ne h.1]
      exact ih h.2

theorem lookup_append_left {α β : Type} [BEq α] {l₁ l₂ : List (α × β)} {k : α} {v : β}
    (h : l₁.lookup k = some v) : (l₁ ++ l₂).lookup k = some v := by
  induction l₁ with
  | nil => simp [List.lookup] at h
  | cons hd tl ih =>
      obtain ⟨a, b⟩ := hd
      rw [List.lookup] at h
      rw [List.cons_append, List.lookup]
      cases hk : (k == a) with
      | true => rw [hk] at h; exact h
      | false => rw [hk] at h; exact ih h

theorem lookup_append_right {α β : Type} [BEq α] {l₁ l₂ : List (α × β)} {k : α}
    (h : l₁.lookup k = none) : (l₁ ++ l₂).lookup k = l₂.lookup k := by
  induction l₁ with
  | nil => rfl
  | cons hd tl ih =>
      obtain ⟨a, b⟩ := hd
      rw [List.lookup] at h
      rw [List.cons_append, List.lookup]
      cases hk : (k == a) with
      | true => rw [hk] at h; cases h
      | false => rw [hk] at h; exact ih h

theorem updAction_cons (a : Nat) (b : AnimationAction) (tl : ActionStore) (i : Nat)
    (f : AnimationAction → AnimationAction) :
    updAction ((a, b) :: tl) i f
      = (if a = i then (a, f b) else (a, b)) :: updAction tl i f := by
  by_cases ha : a = i <;> simp [updAction, ha]

theorem updAction_lookup_self (st : ActionStore) (i : Nat)
    (f : AnimationAction → AnimationAction) :
    (updAction st i f).lookup i = (st.lookup i).map f := by
  induction st with
  | nil => rfl
  | cons hd tl ih =>
      obtain ⟨a, b⟩ := hd
      rw [updAction_cons]
      by_cases ha : a = i
      · subst ha
        rw [if_pos rfl, List.lookup_cons, List.lookup_cons, beq_self_eq_true]
        rfl
      · rw [if_neg ha, List.lookup_cons, List.lookup_cons,
          beq_false_of_ne (Ne.symm ha)]
        exact ih

theorem updAction_lookup_ne (st : ActionStore) {i j : Nat}
    (f : AnimationAction → AnimationAction) (h : j ≠ i) :
    (updAction st i f).lookup j = st.lookup j := by
  induction st with
  | nil => rfl
  | cons hd tl ih =>
      obtain ⟨a, b⟩ := hd
      rw [updAction_cons]
      by_cases ha : a = i
      · subst ha
        rw [if_pos rfl, List.lookup_cons, List.lookup_cons, beq_false_of_ne h]
        exact ih
      · rw [if_neg ha, List.lookup_cons, List.lookup_cons]
        cases hj : (j == a) with
        | true => rfl
        | false => exact ih

theorem updAction_keys (st : ActionStore) (i : Nat)
    (f : AnimationAction → AnimationAction) :
    (updAction st i f).map Prod.fst = st.map Prod.fst := by
  induction st with
  | nil => rfl
  | cons hd tl ih =>
      obtain ⟨a, b⟩ := hd
      by_cases ha : a = i <;> simp [updAction, ha] at * <;> exact ih

theorem updAction_mem {st : ActionStore} {i : Nat} {f : AnimationAction → AnimationAction}
    {p : Nat × AnimationAction} (hp : p ∈ updAction st i f) :
    ∃ q ∈ st, p.1 = q.1 ∧ ((q.1 = i ∧ p.2 = f q.2) ∨ (q.1 ≠ i ∧ p.2 = q.2)) := by
  simp only [updAction, List.mem_map] at hp
  obtain ⟨q, hq, hpq⟩ := hp
  refine ⟨q, hq, ?_⟩
  by_cases hqi : q.1 = i
  · rw [if_pos hqi] at hpq
    subst hpq
    exact ⟨rfl, Or.inl ⟨hqi, rfl⟩⟩
  · rw [if_neg hqi] at hpq
    subst hpq
    exact ⟨rfl, Or.inr ⟨hqi, rfl⟩⟩

theorem stopAll_nil (st : ActionStore) : stopAllRegistered [] st = st := rfl

theorem stopAll_cons (hd : String × Nat) (tl : List (String × Nat)) (st : ActionStore) :
    stopAllRegistered (hd :: tl) st
      = stopAllRegistered tl (updAction st hd.2 AnimationAction.stopA) := rfl

theorem stopAll_keys (reg : List (String × Nat)) (st : ActionStore) :
    (stopAllRegistered reg st).map Prod.fst = st.map Prod.fst := by
  induction reg generalizing st with
  | nil => rfl
  | cons hd tl ih =>
      rw [stopAll_cons, ih, updAction_keys]

theorem stopAll_lookup_not_mem {reg : List (String × Nat)} {st : ActionStore} {n : Nat}
    (h : n ∉ reg.map Prod.snd) : (stopAllRegistered reg st).lookup n = st.lookup n := by
  induction reg generalizing st with
  | nil => rfl
  | cons hd tl ih =>
      simp only [List.map_cons, List.mem_cons, not_or] at h
      rw [stopAll_cons, ih h.2, updAction_lookup_ne _ _ h.1]

theorem stopAll_mem {reg : List (String × Nat)} {st : ActionStore}
    {p : Nat × AnimationAction} (hp : p ∈ stopAllRegistered reg st) :
    ∃ q ∈ st, p.1 = q.1 ∧ (p.2.running = false ∨ (p.2 = q.2 ∧ p.1 ∉ reg.map Prod.snd)) := by
  induction reg generalizing st with
  | nil => exact ⟨p, hp, rfl, Or.inr ⟨rfl, by simp⟩⟩
  | cons hd tl ih =>
      rw [stopAll_cons] at hp
      obtain ⟨q', hq', hfst, hcase⟩ := ih hp
      obtain ⟨q, hq, hfst', hf⟩ := updAction_mem hq'
      refine ⟨q, hq, hfst.trans hfst', ?_⟩
      rcases hcase with hstop | ⟨heq, hnm⟩
      · exact Or.inl hstop
      · rcases hf with ⟨hi, hfa⟩ | ⟨hi, hfa⟩
        · exact Or.inl (by rw [heq, hfa]; rfl)
        · refine Or.inr ⟨heq.trans hfa, ?_⟩
          simp only [List.map_cons, List.mem_cons, not_or]
          exact ⟨by rw [hfst.trans hfst']; exact hi, hnm⟩

theorem mapSet_cons_eq (rest : List (String × Nat)) (k : String) (v v' : Nat) :
    mapSet ((k, v') :: rest) k v = (k, v) :: rest := by
  rw [mapSet]
  exact if_pos rfl

theorem mapSet_cons_ne (rest : List (String × Nat)) {a k : String} (b v : Nat)
    (h : a ≠ k) : mapSet ((a, b) :: rest) k v = (a, b) :: mapSet rest k v := by
  rw [mapSet]
  exact if_neg h

theorem mapSet_keys_mem (reg : List (String × Nat)) (k : String) (v : Nat) (n : String) :
    n ∈ (mapSet reg k v).map Prod.fst ↔ (n = k ∨ n ∈ reg.map Prod.fst) := by
  induction reg with
  | nil => simp [mapSet]
  | cons hd tl ih =>
      obtain ⟨a, b⟩ := hd
      by_cases ha : a = k
      · subst ha
        rw [mapSet_cons_eq]
        simp only [List.map_cons, List.mem_cons]
        tauto
      · rw [mapSet_cons_ne _ _ _ ha]
        simp only [List.map_cons, List.mem_cons, ih]
        tauto

theorem mapSet_mem {reg : List (String × Nat)} {k : String} {v : Nat}
    {p : String × Nat} (hp : p ∈ mapSet reg k v) : p = (k, v) ∨ p ∈ reg := by
  induction reg with
  | nil => simpa [mapSet] using hp
  | cons hd tl ih =>
      obtain ⟨a, b⟩ := hd
      by_cases ha : a = k
      · subst ha
        rw [mapSet_cons_eq] at hp
        rcases List.mem_cons.1 hp with h | h
        · exact Or.inl h
        · exact Or.inr (List.mem_cons_of_mem _ h)
      · rw [mapSet_cons_ne _ _ _ ha] at hp
        rcases List.mem_cons.1 hp with h | h
        · exact Or.inr (h ▸ List.mem_cons_self _ _)
        · rcases ih h with h' | h'
          · exact Or.inl h'
          · exact Or.inr (List.mem_cons_of_mem _ h')

theorem lookup_none_of_forall_lt {st : ActionStore} {n : Nat}
    (h : ∀ q ∈ st, q.1 < n) : st.lookup n = none := by
  apply lookup_eq_none_of_not_mem_keys
  intro hmem
  obtain ⟨q, hq, hq1⟩ := List.mem_map.1 hmem
  exact absurd (hq1 ▸ h q hq) (lt_irrefl n)

theorem registerClips_nil (st : ActionStore) (reg : List (String × Nat)) (nid : Nat) :
    registerClips [] st reg nid = (st, reg, nid) := rfl

theorem registerClips_cons (clip : AnimationClip) (rest : List AnimationClip)
    (st : ActionStore) (reg : List (String × Nat)) (nid : Nat) :
    registerClips (clip :: rest) st reg nid
      = registerClips rest (st ++ [(nid, freshClipAction clip.name)])
          (mapSet reg clip.name nid) (nid + 1) := rfl

theorem registerClips_spec (clips : List AnimationClip) :
    ∀ (st : ActionStore) (reg : List (String × Nat)) (nid : Nat),
      (∀ q ∈ st, q.1 < nid) →
      (∀ p ∈ reg, ∃ a, st.lookup p.2 = some a ∧
        a.clampWhenFinished = true ∧ a.loopOnce = true) →
      (∀ q ∈ (registerClips clips st reg nid).1, q.1 < (registerClips clips st reg nid).2.2) ∧
      (∀ n, n ∈ ((registerClips clips st reg nid).2.1).map Prod.fst ↔
        (n ∈ reg.map Prod.fst ∨ n ∈ clips.map AnimationClip.name)) ∧
      (∀ p ∈ (registerClips clips st reg nid).2.1, ∃ a,
        ((registerClips clips st reg nid).1).lookup p.2 = some a ∧
        a.clampWhenFinished = true ∧ a.loopOnce = true) := by
  induction clips with
  | nil =>
      intro st reg nid hwf hreg
      refine ⟨hwf, ?_, hreg⟩
      intro n
      simp [registerClips_nil]
  | cons clip rest ih =>
      intro st reg nid hwf hreg
      rw [registerClips_cons]
      have hwf' : ∀ q ∈ st ++ [(nid, freshClipAction clip.name)], q.1 < nid + 1 := by
        intro q hq
        rcases List.mem_append.1 hq with hq | hq
        · exact Nat.lt_trans (hwf q hq) (Nat.lt_succ_self nid)
        · rcases List.mem_singleton.1 hq with rfl
          exact Nat.lt_succ_self nid
      have hreg' : ∀ p ∈ mapSet reg clip.name nid,
          ∃ a, (st ++ [(nid, freshClipAction clip.name)]).lookup p.2 = some a ∧
            a.clampWhenFinished = true ∧ a.loopOnce = true := by
        intro p hp
        rcases mapSet_mem hp with rfl | hp'
        · refine ⟨freshClipAction clip.name, ?_, rfl, rfl⟩
          rw [lookup_append_right (lookup_none_of_forall_lt hwf)]
          exact List.lookup_cons_self
        · obtain ⟨a, ha, hc, hl⟩ := hreg p hp'
          exact ⟨a, lookup_append_left ha, hc, hl⟩
      obtain ⟨h1, h2, h3⟩ := ih _ _ _ hwf' hreg'
      refine ⟨h1, ?_, h3⟩
      intro n
      rw [h2 n, mapSet_keys_mem]
      simp only [List.map_cons, List.mem_cons]
      tauto

theorem scaled_extent (s a b : ℚ) (hs : 0 ≤ s) :
    max (s * a) (s * b) - min (s * a) (s * b) = s * (max a b - min a b) := by
  rw [← mul_max_of_nonneg _ _ hs, ← mul_min_of_nonneg _ _ hs, mul_sub]

theorem scaled_mid (s a b : ℚ) (hs : 0 ≤ s) :
    (min (s * a) (s * b) + max (s * a) (s * b)) / 2
      = s * ((min a b + max a b) / 2) := by
  rw [← mul_max_of_nonneg _ _ hs, ← mul_min_of_nonneg _ _ hs, ← mul_add,
    mul_div_assoc]

theorem max3_smul (s a b c : ℚ) (hs : 0 ≤ s) :
    max (s * a) (max (s * b) (s * c)) = s * max a (max b c) := by
  rw [← mul_max_of_nonneg _ _ hs, ← mul_max_of_nonneg _ _ hs]

theorem setFromObject_scaled_size (p : Vec3) (sc : ℚ) (hsc : 0 ≤ sc)
    (b1 b2 : Vec3) (vis : Bool) :
    (setFromObject
        { position := p, scale := Vec3.splat sc, bmin := b1, bmax := b2,
          visible := vis }).getSize
      = Vec3.smul sc
          ((setFromObject
              { position := Vec3.zero, scale := Vec3.one, bmin := b1, bmax := b2,
                visible := vis }).getSize) := by
  simp only [setFromObject, Box3.getSize, Vec3.splat, Vec3.smul, Vec3.zero,
    Vec3.one, one_mul, zero_add, Vec3.mk.injEq]
  refine ⟨?_, ?_, ?_⟩
  · linear_combination scaled_extent sc b1.x b2.x hsc
  · linear_combination scaled_extent sc b1.y b2.y hsc
  · linear_combination scaled_extent sc b1.z b2.z hsc

theorem setFromObject_scaled_center (p : Vec3) (sc : ℚ) (hsc : 0 ≤ sc)
    (b1 b2 : Vec3) (vis : Bool) :
    (setFromObject
        { position := p, scale := Vec3.splat sc, bmin := b1, bmax := b2,
          visible := vis }).getCenter
      = Vec3.add p
          (Vec3.smul sc
            ((setFromObject
                { position := Vec3.zero, scale := Vec3.one, bmin := b1, bmax := b2,
                  visible := vis }).getCenter)) := by
  simp only [setFromObject, Box3.getCenter, Vec3.splat, Vec3.smul, Vec3.add,
    Vec3.zero, Vec3.one, one_mul, zero_add, Vec3.mk.injEq]
  refine ⟨?_, ?_, ?_⟩
  · linear_combination scaled_mid sc b1.x b2.x hsc
  · linear_combination scaled_mid sc b1.y b2.y hsc
  · linear_combination scaled_mid sc b1.z b2.z hsc

theorem maxDim3_smul (sc : ℚ) (hsc : 0 ≤ sc) (v : Vec3) :
    maxDim3 (Vec3.smul sc v) = sc * maxDim3 v := by
  simp only [maxDim3, Vec3.smul]
  exact max3_smul sc v.x v.y v.z hsc

/-! ### Claim theorems -/

/-- C8: for every width, `resize(width, 0)` divides by `max(1, 0) = 1`
(never zero) and stores an aspect ratio clamped to the positive minimum
`1e-6`, so the call neither throws nor divides by zero. -/
theorem resize_zero_height_safe (s : RendererState) (width : ℚ)
    (hinit : s.renderInitialized = true) :
    max (1 : ℚ) (0 : ℚ) = 1 ∧
    (0 : ℚ) < max (1 : ℚ) (0 : ℚ) ∧
    (resize s width 0).aspect = resizeAspect width 0 ∧
    (1 / 1000000 : ℚ) ≤ (resize s width 0).aspect ∧
    0 < (resize s width 0).aspect := by
  have haspect : (resize s width 0).aspect = resizeAspect width 0 := by
    simp [resize, hinit]
  refine ⟨by norm_num, by norm_num, haspect, ?_, ?_⟩
  · rw [haspect]
    exact le_max_left _ _
  · rw [haspect]
    exact lt_of_lt_of_le (by norm_num) (le_max_left _ _)

/-- Witness for C8 at a concrete initialized renderer and width 800. -/
theorem resize_zero_height_safe_witness :
    max (1 : ℚ) (0 : ℚ) = 1 ∧
    (0 : ℚ) < max (1 : ℚ) (0 : ℚ) ∧
    (resize (initRenderer 800 600) 800 0).aspect = resizeAspect 800 0 ∧
    (1 / 1000000 : ℚ) ≤ (resize (initRenderer 800 600) 800 0).aspect ∧
    0 < (resize (initRenderer 800 600) 800 0).aspect :=
  resize_zero_height_safe (initRenderer 800 600) 800 rfl

/-- C6: when the base-asset fetch/parse fails, `loadModel` rejects with the
loader's error and leaves no current model; at the screen level the view-init
flow then ends with `loading = false`, `characterLoaded = false` and a
non-empty error string. -/
theorem loadModel_failure_leaves_no_model (s : RendererState) (e : String)
    (width height : ℚ) :
    (loadModel s (.error e)).1.currentModel = none ∧
    (loadModel s (.error e)).2 = .error e ∧
    (ngAfterViewInit (.error e) width height).loading = false ∧
    (ngAfterViewInit (.error e) width height).characterLoaded = false ∧
    ∃ msg, (ngAfterViewInit (.error e) width height).error = some msg ∧ msg ≠ "" := by
  refine ⟨?_, ?_, ?_, ?_, ?_⟩
  · cases h : s.currentModel <;>
      simp [loadModel, disposeCurrentModel, h]
  · cases h : s.currentModel <;>
      simp [loadModel, disposeCurrentModel, h]
  · simp [ngAfterViewInit, freshScreen, initRenderer, loadModel, disposeCurrentModel]
  · simp [ngAfterViewInit, freshScreen, initRenderer, loadModel, disposeCurrentModel]
  · refine ⟨if e = "" then "Failed to load character model" else e, ?_, ?_⟩
    · simp [ngAfterViewInit, freshScreen, initRenderer, loadModel, disposeCurrentModel]
    · by_cases he : e = ""
      · rw [if_pos he]
        decide
      · rw [if_neg he]
        exact he

/-- C9: while `isPlaying` is set, `playSign` is a complete no-op (in
particular it initiates no second asset load); the 4-second timer callback
clears `isPlaying`, after which a selection initiates a load again. -/
theorem playSign_reentrancy_guard (st : ScreenState) (sign sign2 : AslSign)
    (world world2 : String → Except String GLTF) (hp : st.isPlaying = true) :
    playSign st sign world = st ∧
    (playTimerFires st).isPlaying = false ∧
    (st.characterLoaded = true →
      (playSign (playTimerFires st) sign2 world2).loadCount = st.loadCount + 1) := by
  refine ⟨?_, rfl, ?_⟩
  · simp [playSign, hp]
  · intro hc
    have hguard :
        ¬((playTimerFires st).characterLoaded = false ∨
          (playTimerFires st).isPlaying = true) := by
      simp [playTimerFires, hc]
    rw [playSign, if_neg hguard]
    rcases hres : playAnimationForExistingModel st.renderer
        (world2 (fixResourcePath (actionPath sign2.id))) (3 / 10) with ⟨r, res⟩
    cases res <;> simp [playTimerFires, hres]

/-- Witness for C9 at a concrete playing screen state. -/
theorem playSign_reentrancy_guard_witness :
    playSign { freshScreen (initRenderer 1 1) with isPlaying := true }
        { id := "Ball", label := "Ball", description := some "Sign for showing Ball" }
        (fun _ => .error "net") =
      { freshScreen (initRenderer 1 1) with isPlaying := true } ∧
    (playTimerFires { freshScreen (initRenderer 1 1) with isPlaying := true }).isPlaying
      = false ∧
    ({ freshScreen (initRenderer 1 1) with isPlaying := true }.characterLoaded = true →
      (playSign
          (playTimerFires { freshScreen (initRenderer 1 1) with isPlaying := true })
          { id := "Ball", label := "Ball", description := some "Sign for showing Ball" }
          (fun _ => .error "net")).loadCount
        = { freshScreen (initRenderer 1 1) with isPlaying := true }.loadCount + 1) :=
  playSign_reentrancy_guard _ _ _ _ _ rfl

/-- C7: `play` is a no-op on an unregistered name; on a registered name the
target action handle ends with time 0, effective time scale 1, effective
weight 1, a fade-in over `fadeSeconds`, running, and marked active, while a
*different* active handle is faded out over `fadeSeconds`; the target itself
(also when it was already the active handle, i.e. a same-name re-play) is
never faded out, only reset and replayed. -/
theorem play_spec (s : RendererState) (clipName : String) (f : ℚ) :
    (s.actions.lookup clipName = none → play s clipName f = s) ∧
    (∀ nid, s.actions.lookup clipName = some nid →
      (play s clipName f).activeAction = some nid ∧
      (∀ a0, s.store.lookup nid = some a0 →
        (play s clipName f).store.lookup nid
          = some { a0 with
                   time := 0, timeScale := 1, weight := 1,
                   fadeDir := some (true, f), running := true }) ∧
      (∀ aid, s.activeAction = some aid → aid ≠ nid →
        ∀ b0, s.store.lookup aid = some b0 →
          (play s clipName f).store.lookup aid
            = some { b0 with fadeDir := some (false, f) })) := by
  constructor
  · intro h
    simp [play, h]
  · intro nid h
    refine ⟨?_, ?_, ?_⟩
    · simp [play, h]
    · intro a0 ha0
      cases hact : s.activeAction with
      | none =>
          simp only [play, h, hact]
          rw [updAction_lookup_self, ha0]
          rfl
      | some aid =>
          by_cases haid : aid = nid
          · subst haid
            simp only [play, h, hact, ne_eq, not_true_eq_false, if_false,
              ite_not]
            rw [updAction_lookup_self, ha0]
            rfl
          · simp only [play, h, hact]
            rw [if_pos (by exact haid)]
            rw [updAction_lookup_self,
              updAction_lookup_ne _ _ (fun he => haid he.symm), ha0]
            rfl
    · intro aid hact haid b0 hb0
      simp only [play, h, hact]
      rw [if_pos haid]
      rw [updAction_lookup_ne _ _ haid, updAction_lookup_self, hb0]
      rfl

/-- Witness for C7 on `demoPlayState`: the unregistered name is a no-op, and
playing `"Idle"` starts handle 0 while fading out the previously active
handle 1. -/
theorem play_spec_witness :
    play demoPlayState "Nope" (3 / 10) = demoPlayState ∧
    (play demoPlayState "Idle" (3 / 10)).activeAction = some 0 ∧
    (play demoPlayState "Idle" (3 / 10)).store.lookup 0
      = some { clipName := "Idle", time := 0, timeScale := 1, weight := 1,
               clampWhenFinished := true, loopOnce := true, running := true,
               fadeDir := some (true, 3 / 10) } ∧
    (play demoPlayState "Idle" (3 / 10)).store.lookup 1
      = some { clipName := "Wave", time := 0, timeScale := 1, weight := 1,
               clampWhenFinished := true, loopOnce := true, running := false,
               fadeDir := some (false, 3 / 10) } := by
  refine ⟨(play_spec demoPlayState "Nope" (3 / 10)).1 rfl,
    ((play_spec demoPlayState "Idle" (3 / 10)).2 0 rfl).1, ?_, ?_⟩
  · have h := ((play_spec demoPlayState "Idle" (3 / 10)).2 0 rfl).2.1
      (freshClipAction "Idle") rfl
    exact h.trans (by simp [freshClipAction])
  · have h := ((play_spec demoPlayState "Idle" (3 / 10)).2 0 rfl).2.2 1
      rfl (by decide) (freshClipAction "Wave") rfl
    exact h.trans (by simp [freshClipAction])

theorem loadModel_ok_components (s : RendererState) (g : GLTF) :
    ((loadModel s (.ok g)).1.actions
        = if g.animations.isEmpty then []
          else (registerClips g.animations [] [] (disposeCurrentModel s).nextId).2.1) ∧
    ((loadModel s (.ok g)).1.store
        = if g.animations.isEmpty then []
          else (registerClips g.animations [] [] (disposeCurrentModel s).nextId).1) := by
  by_cases hempty : g.animations.isEmpty <;>
    simp [loadModel, hempty]

/-- C5: after `loadModel` resolves on an asset, the registered clip names are
exactly the names embedded in that asset (as a set — previous names are gone),
and every registered entry holds an action configured to clamp when finished
and play once. -/
theorem loadModel_clipNames_exact (s : RendererState) (g : GLTF) :
    (∀ n, n ∈ getClipNames (loadModel s (.ok g)).1 ↔
      n ∈ g.animations.map AnimationClip.name) ∧
    (∀ p ∈ (loadModel s (.ok g)).1.actions,
      ∃ a, (loadModel s (.ok g)).1.store.lookup p.2 = some a ∧
        a.clampWhenFinished = true ∧ a.loopOnce = true) := by
  obtain ⟨hact, hstore⟩ := loadModel_ok_components s g
  by_cases hempty : g.animations.isEmpty
  · rw [if_pos hempty] at hact hstore
    have hnil : g.animations = [] := by simpa using hempty
    constructor
    · intro n
      rw [getClipNames, hact, hnil]
      simp
    · intro p hp
      rw [hact] at hp
      simp at hp
  · rw [if_neg hempty] at hact hstore
    obtain ⟨h1, h2, h3⟩ := registerClips_spec g.animations [] []
      (disposeCurrentModel s).nextId (by simp) (by simp)
    constructor
    · intro n
      rw [getClipNames, hact, h2 n]
      simp
    · intro p hp
      rw [hact] at hp
      obtain ⟨a, ha, hc, hl⟩ := h3 p hp
      rw [hstore]
      exact ⟨a, ha, hc, hl⟩

/-- C2 counterexample: on the unit-cube asset (largest dimension 1, hence
positive) `loadModel` resolves, but the loaded model's bounding-box center
ends at (1/4, 1/4, 1/4), not at the world origin: the code subtracts the
center computed *before* rescaling, so the subsequent `scale.setScalar(1.5)`
moves the box center away from the origin again. -/
theorem loadModel_center_counterexample :
    0 < gltfMaxDim demoActionAsset ∧
    (loadModel (initRenderer 1 1) (.ok demoActionAsset)).2
      = .ok { position := ⟨-(1 / 2), -(1 / 2), -(1 / 2)⟩,
              scale := ⟨3 / 2, 3 / 2, 3 / 2⟩,
              bmin := ⟨0, 0, 0⟩, bmax := ⟨1, 1, 1⟩, visible := true } ∧
    (setFromObject
        { position := ⟨-(1 / 2), -(1 / 2), -(1 / 2)⟩,
          scale := ⟨3 / 2, 3 / 2, 3 / 2⟩,
          bmin := ⟨0, 0, 0⟩, bmax := ⟨1, 1, 1⟩,
          visible := true : Object3D }).getCenter = ⟨1 / 4, 1 / 4, 1 / 4⟩ ∧
    (setFromObject
        { position := ⟨-(1 / 2), -(1 / 2), -(1 / 2)⟩,
          scale := ⟨3 / 2, 3 / 2, 3 / 2⟩,
          bmin := ⟨0, 0, 0⟩, bmax := ⟨1, 1, 1⟩,
          visible := true : Object3D }).getCenter ≠ Vec3.zero := by
  refine ⟨?_, ?_, ?_, ?_⟩
  · norm_num [gltfMaxDim, gltfBox, maxDim3, setFromObject, Box3.getSize,
      demoActionAsset, Vec3.zero, Vec3.one, min_def, max_def]
  · norm_num [loadModel, disposeCurrentModel, initRenderer, demoActionAsset,
      setFromObject, Box3.getSize, Box3.getCenter, Vec3.zero, Vec3.one,
      Vec3.sub, Vec3.splat, min_def, max_def]
  · norm_num [setFromObject, Box3.getCenter, min_def, max_def]
  · norm_num [setFromObject, Box3.getCenter, Vec3.zero, min_def, max_def]

/-- C2 (amended): when `loadModel` resolves on an asset with a positive
largest bounding-box dimension, the model is translated by the negation of
the bounding-box center measured *before* rescaling and is uniformly rescaled
so its largest bounding-box dimension is exactly 1.5; the final bounding-box
center equals `(1.5/maxDim - 1)` times that pre-scale center, which is the
world origin only when the pre-scale center already was the origin. -/
theorem loadModel_translates_then_rescales (s : RendererState) (g : GLTF)
    (hpos : 0 < gltfMaxDim g) :
    ∃ m, (loadModel s (.ok g)).2 = .ok m ∧
      (loadModel s (.ok g)).1.currentModel = some m ∧
      m.position = Vec3.zero.sub (gltfBox g).getCenter ∧
      m.scale = Vec3.splat (3 / 2 / gltfMaxDim g) ∧
      maxDim3 (setFromObject m).getSize = 3 / 2 ∧
      (setFromObject m).getCenter
        = Vec3.smul (3 / 2 / gltfMaxDim g - 1) (gltfBox g).getCenter := by
  have hpos' : 0 < maxDim3 (gltfBox g).getSize := hpos
  have hsc : (0 : ℚ) ≤ 3 / 2 / gltfMaxDim g := by positivity
  have hif :
      (0 : ℚ) < max
        ((setFromObject
            { position := Vec3.zero, scale := Vec3.one, bmin := g.bmin,
              bmax := g.bmax, visible := true }).getSize).x
        (max
          ((setFromObject
              { position := Vec3.zero, scale := Vec3.one, bmin := g.bmin,
                bmax := g.bmax, visible := true }).getSize).y
          ((setFromObject
              { position := Vec3.zero, scale := Vec3.one, bmin := g.bmin,
                bmax := g.bmax, visible := true }).getSize).z) := hpos'
  refine ⟨{ position := Vec3.zero.sub (gltfBox g).getCenter,
            scale := Vec3.splat (3 / 2 / gltfMaxDim g),
            bmin := g.bmin, bmax := g.bmax, visible := true }, ?_, ?_, rfl, rfl,
          ?_, ?_⟩
  · simp only [loadModel]
    rw [if_pos hif]
    rfl
  · simp only [loadModel]
    rw [if_pos hif]
    rfl
  · rw [setFromObject_scaled_size _ _ hsc, maxDim3_smul _ hsc]
    have : maxDim3
        ((setFromObject
            { position := Vec3.zero, scale := Vec3.one, bmin := g.bmin,
              bmax := g.bmax, visible := true }).getSize) = gltfMaxDim g := rfl
    rw [this, div_mul_cancel₀ _ (ne_of_gt hpos)]
  · rw [setFromObject_scaled_center _ _ hsc]
    have : (setFromObject
        { position := Vec3.zero, scale := Vec3.one, bmin := g.bmin,
          bmax := g.bmax, visible := true }).getCenter = (gltfBox g).getCenter := rfl
    rw [this]
    simp only [Vec3.add, Vec3.sub, Vec3.smul, Vec3.zero, Vec3.mk.injEq]
    refine ⟨by ring, by ring, by ring⟩

/-- Witness for C2 (amended) on the unit-cube asset. -/
theorem loadModel_translates_then_rescales_witness :
    0 < gltfMaxDim demoActionAsset ∧
    ∃ m, (loadModel (initRenderer 1 1) (.ok demoActionAsset)).2 = .ok m ∧
      (loadModel (initRenderer 1 1) (.ok demoActionAsset)).1.currentModel = some m ∧
      m.position = Vec3.zero.sub (gltfBox demoActionAsset).getCenter ∧
      m.scale = Vec3.splat (3 / 2 / gltfMaxDim demoActionAsset) ∧
      maxDim3 (setFromObject m).getSize = 3 / 2 ∧
      (setFromObject m).getCenter
        = Vec3.smul (3 / 2 / gltfMaxDim demoActionAsset - 1)
            (gltfBox demoActionAsset).getCenter := by
  have hpos : 0 < gltfMaxDim demoActionAsset := by
    norm_num [gltfMaxDim, gltfBox, maxDim3, setFromObject, Box3.getSize,
      demoActionAsset, Vec3.zero, Vec3.one]
  exact ⟨hpos, loadModel_translates_then_rescales (initRenderer 1 1)
    demoActionAsset hpos⟩

/-- C3 counterexample: on a static model with a side-6 cube box, one
`centerModel` call yields position (-3, 0, -3) (and scale 1/2), but a second
call yields position (-3/2, 0, -3/2): the first call's rescale changes the
box, so the position computed from it moves again. -/
theorem centerModel_not_idempotent_counterexample :
    ((centerModel demoBigModelState).currentModel.map Object3D.position)
      = some ⟨-3, 0, -3⟩ ∧
    ((centerModel (centerModel demoBigModelState)).currentModel.map
        Object3D.position)
      = some ⟨-(3 / 2), 0, -(3 / 2)⟩ ∧
    ((centerModel (centerModel demoBigModelState)).currentModel.map
        Object3D.position)
      ≠ ((centerModel demoBigModelState).currentModel.map Object3D.position) := by
  refine ⟨?_, ?_, ?_⟩
  · norm_num [centerModel, demoBigModelState, initRenderer, setFromObject,
      Box3.getSize, Box3.getCenter, Vec3.zero, Vec3.one, Vec3.splat,
      min_def, max_def]
  · norm_num [centerModel, demoBigModelState, initRenderer, setFromObject,
      Box3.getSize, Box3.getCenter, Vec3.zero, Vec3.one, Vec3.splat,
      min_def, max_def]
  · norm_num [centerModel, demoBigModelState, initRenderer, setFromObject,
      Box3.getSize, Box3.getCenter, Vec3.zero, Vec3.one, Vec3.splat,
      min_def, max_def]

/-- C3 (amended): `centerModel` is idempotent on a static model *provided*
the model's largest bounding-box dimension (at its current scale) lies in
[1, 3], so that no rescale branch fires; a call that rescales changes the box
and makes a second call produce a different position. -/
theorem centerModel_idempotent_in_range (s : RendererState) (m : Object3D)
    (hm : s.currentModel = some m)
    (h1 : 1 ≤ modelMaxDim m) (h3 : modelMaxDim m ≤ 3) :
    (centerModel (centerModel s)).currentModel = (centerModel s).currentModel := by
  have hnot3 : ¬ ((3 : ℚ) < max
      ((setFromObject
          { position := Vec3.zero, scale := m.scale, bmin := m.bmin,
            bmax := m.bmax, visible := m.visible }).getSize).x
      (max
        ((setFromObject
            { position := Vec3.zero, scale := m.scale, bmin := m.bmin,
              bmax := m.bmax, visible := m.visible }).getSize).y
        ((setFromObject
            { position := Vec3.zero, scale := m.scale, bmin := m.bmin,
              bmax := m.bmax, visible := m.visible }).getSize).z)) := not_lt.2 h3
  have hnot1 : ¬ (max
      ((setFromObject
          { position := Vec3.zero, scale := m.scale, bmin := m.bmin,
            bmax := m.bmax, visible := m.visible }).getSize).x
      (max
        ((setFromObject
            { position := Vec3.zero, scale := m.scale, bmin := m.bmin,
              bmax := m.bmax, visible := m.visible }).getSize).y
        ((setFromObject
            { position := Vec3.zero, scale := m.scale, bmin := m.bmin,
              bmax := m.bmax, visible := m.visible }).getSize).z) < (1 : ℚ))
    := not_lt.2 h1
  simp only [centerModel, hm]
  rw [if_neg hnot3, if_neg hnot1]
  simp only []
  rw [if_neg hnot3, if_neg hnot1]

/-- Witness for C3 (amended) on the unit-cube model (largest dimension 1). -/
theorem centerModel_idempotent_in_range_witness :
    (centerModel (centerModel demoModelState)).currentModel
      = (centerModel demoModelState).currentModel := by
  refine centerModel_idempotent_in_range demoModelState
    { position := Vec3.zero, scale := Vec3.one,
      bmin := Vec3.zero, bmax := ⟨1, 1, 1⟩, visible := true } rfl ?_ ?_
  · norm_num [modelMaxDim, maxDim3, setFromObject, Box3.getSize, Vec3.zero,
      Vec3.one, min_def, max_def]
  · norm_num [modelMaxDim, maxDim3, setFromObject, Box3.getSize, Vec3.zero,
      Vec3.one, min_def, max_def]

theorem pAFEM_no_model (s : RendererState) (asset : Except String GLTF) (f : ℚ)
    (hm : s.currentModel = none) :
    playAnimationForExistingModel s asset f
      = (s, .error "No character model loaded") := by
  simp [playAnimationForExistingModel, hm]

theorem pAFEM_ok_components (s : RendererState) (m : Object3D) (g : GLTF)
    (clip : AnimationClip) (rest : List AnimationClip) (f : ℚ)
    (hm : s.currentModel = some m) (hg : g.animations = clip :: rest) :
    (playAnimationForExistingModel s (.ok g) f).2 = .ok () ∧
    (playAnimationForExistingModel s (.ok g) f).1.activeAction = some s.nextId ∧
    (playAnimationForExistingModel s (.ok g) f).1.nextId = s.nextId + 1 ∧
    (playAnimationForExistingModel s (.ok g) f).1.store
      = (match s.activeAction with
         | some aid => updAction (stopAllRegistered s.actions s.store) aid
             AnimationAction.stopA
         | none => stopAllRegistered s.actions s.store)
        ++ [(s.nextId, playActionRecord clip.name)] ∧
    (playAnimationForExistingModel s (.ok g) f).1.actions
      = (if (s.actions.lookup clip.name).isSome then s.actions
         else s.actions ++ [(clip.name, s.nextId)]) ∧
    (playAnimationForExistingModel s (.ok g) f).1.currentModel
      = some { m with position := m.position, scale := m.scale } := by
  cases hmix : s.hasMixer <;>
    cases hact : s.activeAction <;>
      by_cases hlook : (s.actions.lookup clip.name).isSome <;>
        simp [playAnimationForExistingModel, hm, hg, hmix, hact, hlook,
          playActionRecord, AnimationAction.reset,
          AnimationAction.setEffectiveTimeScale,
          AnimationAction.setEffectiveWeight, AnimationAction.playA]

theorem pAFEM_ok_inv {s : RendererState} {asset : Except String GLTF} {f : ℚ}
    (h : (playAnimationForExistingModel s asset f).2 = .ok ()) :
    ∃ m g clip rest, s.currentModel = some m ∧ asset = .ok g ∧
      g.animations = clip :: rest := by
  cases hm : s.currentModel with
  | none =>
      rw [pAFEM_no_model s asset f hm] at h
      cases h
  | some m =>
      cases asset with
      | error e => simp [playAnimationForExistingModel, hm] at h
      | ok g =>
          cases hg : g.animations with
          | nil => simp [playAnimationForExistingModel, hm, hg] at h
          | cons clip rest => exact ⟨m, g, clip, rest, rfl, rfl, hg⟩

theorem pAFEM_unique_running (s : RendererState) (m : Object3D) (g : GLTF)
    (clip : AnimationClip) (rest : List AnimationClip) (f : ℚ)
    (hm : s.currentModel = some m) (hg : g.animations = clip :: rest)
    (hwf : ∀ q ∈ s.store, q.1 < s.nextId)
    (hrun : ∀ q ∈ s.store, q.2.running = true →
      s.activeAction = some q.1 ∨ q.1 ∈ s.actions.map Prod.snd) :
    (playAnimationForExistingModel s (.ok g) f).1.activeAction = some s.nextId ∧
    ∀ q ∈ (playAnimationForExistingModel s (.ok g) f).1.store,
      (q.2.running = true ↔ q.1 = s.nextId) := by
  obtain ⟨-, hactive, -, hstore, -, -⟩ := pAFEM_ok_components s m g clip rest f hm hg
  refine ⟨hactive, ?_⟩
  intro q hq
  rw [hstore] at hq
  rcases List.mem_append.1 hq with hq | hq
  · have hkey : q.1 ∈ s.store.map Prod.fst := by
      cases hact : s.activeAction with
      | none =>
          rw [hact] at hq
          obtain ⟨q1, hq1, hfst, -⟩ := stopAll_mem hq
          exact List.mem_map.2 ⟨q1, hq1, hfst.symm⟩
      | some aid =>
          rw [hact] at hq
          obtain ⟨q2, hq2, hfst2, -⟩ := updAction_mem hq
          obtain ⟨q1, hq1, hfst1, -⟩ := stopAll_mem hq2
          exact List.mem_map.2 ⟨q1, hq1, (hfst2.trans hfst1).symm⟩
    have hne : q.1 ≠ s.nextId := by
      obtain ⟨q1, hq1, hfst⟩ := List.mem_map.1 hkey
      exact hfst ▸ ne_of_lt (hwf q1 hq1)
    have hnr : q.2.running = false := by
      cases hact : s.activeAction with
      | none =>
          rw [hact] at hq
          obtain ⟨q1, hq1, hfst, hcase⟩ := stopAll_mem hq
          rcases hcase with h | ⟨heq, hnm⟩
          · exact h
          · cases hqr : q.2.running with
            | false => rfl
            | true =>
                have hq1run : q1.2.running = true := by
                  rw [← heq]
                  exact hqr
                rcases hrun q1 hq1 hq1run with hA | hB
                · rw [hact] at hA
                  cases hA
                · rw [hfst] at hnm
                  exact absurd hB hnm
      | some aid =>
          rw [hact] at hq
          obtain ⟨q2, hq2, hfst2, hf2⟩ := updAction_mem hq
          rcases hf2 with ⟨hq2aid, hq2stop⟩ | ⟨hq2ne, hq2eq⟩
          · rw [hq2stop]
            rfl
          · obtain ⟨q1, hq1, hfst1, hcase⟩ := stopAll_mem hq2
            rcases hcase with h | ⟨heq, hnm⟩
            · rw [hq2eq]
              exact h
            · cases hqr : q.2.running with
              | false => rfl
              | true =>
                  have hq1run : q1.2.running = true := by
                    rw [← heq, ← hq2eq]
                    exact hqr
                  rcases hrun q1 hq1 hq1run with hA | hB
                  · rw [hact] at hA
                    injection hA with hA'
                    exact absurd (hfst1.trans hA'.symm) hq2ne
                  · rw [hfst1] at hnm
                    exact absurd hB hnm
    rw [hnr]
    simp [hne]
  · rcases List.mem_singleton.1 hq with rfl
    simp [playActionRecord]

/-- C4: when `playAnimationForExistingModel` resolves, the first loaded clip
is immediately playing on a fresh action at effective time scale 0.7 and
effective weight 1, configured to clamp when finished and play once, with no
fade scheduled whatever `fadeSeconds` was passed; and the model's position
and scale after the call equal the values captured before the load. -/
theorem pAFEM_playback_config (s : RendererState) (m : Object3D) (g : GLTF)
    (clip : AnimationClip) (rest : List AnimationClip) (f f2 : ℚ)
    (hm : s.currentModel = some m) (hg : g.animations = clip :: rest)
    (hwf : ∀ q ∈ s.store, q.1 < s.nextId) :
    (playAnimationForExistingModel s (.ok g) f).2 = .ok () ∧
    (playAnimationForExistingModel s (.ok g) f).1.activeAction = some s.nextId ∧
    (playAnimationForExistingModel s (.ok g) f).1.store.lookup s.nextId
      = some (playActionRecord clip.name) ∧
    (playActionRecord clip.name).clipName = clip.name ∧
    (playActionRecord clip.name).timeScale = 7 / 10 ∧
    (playActionRecord clip.name).weight = 1 ∧
    (playActionRecord clip.name).running = true ∧
    (playActionRecord clip.name).clampWhenFinished = true ∧
    (playActionRecord clip.name).loopOnce = true ∧
    (playActionRecord clip.name).fadeDir = none ∧
    (∃ m', (playAnimationForExistingModel s (.ok g) f).1.currentModel = some m' ∧
      m'.position = m.position ∧ m'.scale = m.scale) ∧
    playAnimationForExistingModel s (.ok g) f2
      = playAnimationForExistingModel s (.ok g) f := by
  obtain ⟨hok, hactive, -, hstore, -, hmodel⟩ :=
    pAFEM_ok_components s m g clip rest f hm hg
  refine ⟨hok, hactive, ?_, rfl, rfl, rfl, rfl, rfl, rfl, rfl, ?_, rfl⟩
  · rw [hstore]
    have hpre :
        (match s.activeAction with
         | some aid => updAction (stopAllRegistered s.actions s.store) aid
             AnimationAction.stopA
         | none => stopAllRegistered s.actions s.store).lookup s.nextId = none := by
      apply lookup_eq_none_of_not_mem_keys
      have hkeys :
          (match s.activeAction with
           | some aid => updAction (stopAllRegistered s.actions s.store) aid
               AnimationAction.stopA
           | none => stopAllRegistered s.actions s.store).map Prod.fst
            = s.store.map Prod.fst := by
        cases s.activeAction with
        | none => exact stopAll_keys _ _
        | some aid => rw [updAction_keys, stopAll_keys]
      rw [hkeys]
      intro hmem
      obtain ⟨q, hq, hq1⟩ := List.mem_map.1 hmem
      exact absurd (hq1 ▸ hwf q hq) (lt_irrefl s.nextId)
    rw [lookup_append_right hpre]
    exact List.lookup_cons_self
  · exact ⟨{ m with position := m.position, scale := m.scale }, hmodel, rfl, rfl⟩

/-- Witness for C4 on the unit-cube model and the one-clip `BallSign` asset,
with two different fade durations. -/
theorem pAFEM_playback_config_witness :
    (playAnimationForExistingModel demoModelState (.ok demoActionAsset)
        (3 / 10)).2 = .ok () ∧
    (playAnimationForExistingModel demoModelState (.ok demoActionAsset)
        (3 / 10)).1.activeAction = some demoModelState.nextId ∧
    (playAnimationForExistingModel demoModelState (.ok demoActionAsset)
        (3 / 10)).1.store.lookup demoModelState.nextId
      = some (playActionRecord "BallSign") ∧
    (playActionRecord "BallSign").timeScale = 7 / 10 ∧
    (playActionRecord "BallSign").weight = 1 ∧
    (playActionRecord "BallSign").running = true ∧
    (playActionRecord "BallSign").clampWhenFinished = true ∧
    (playActionRecord "BallSign").loopOnce = true ∧
    (playActionRecord "BallSign").fadeDir = none ∧
    (∃ m', (playAnimationForExistingModel demoModelState (.ok demoActionAsset)
        (3 / 10)).1.currentModel = some m' ∧
      m'.position = Vec3.zero ∧ m'.scale = Vec3.one) ∧
    playAnimationForExistingModel demoModelState (.ok demoActionAsset) (1 / 2)
      = playAnimationForExistingModel demoModelState (.ok demoActionAsset)
          (3 / 10) := by
  obtain ⟨h1, h2, h3, -, h5, h6, h7, h8, h9, h10, ⟨m', hm', hp, hs⟩, h12⟩ :=
    pAFEM_playback_config demoModelState
      { position := Vec3.zero, scale := Vec3.one,
        bmin := Vec3.zero, bmax := ⟨1, 1, 1⟩, visible := true }
      demoActionAsset { name := "BallSign", duration := 2 } [] (3 / 10) (1 / 2)
      rfl rfl (by intro q hq; cases hq)
  exact ⟨h1, h2, h3, h5, h6, h7, h8, h9, h10, ⟨m', hm', hp, hs⟩, h12⟩

/-- C10: when the loaded clip's name is already registered, the registry
entry is left pointing at the old handle while the freshly created handle
becomes the active action; a later `play` of that name therefore targets the
old registered handle, not the one that was just active. -/
theorem pAFEM_duplicate_name_registry (s : RendererState) (m : Object3D)
    (g : GLTF) (clip : AnimationClip) (rest : List AnimationClip)
    (oldId : Nat) (f f2 : ℚ)
    (hm : s.currentModel = some m) (hg : g.animations = clip :: rest)
    (hreg : s.actions.lookup clip.name = some oldId)
    (hregwf : ∀ p ∈ s.actions, p.2 < s.nextId) :
    (playAnimationForExistingModel s (.ok g) f).1.actions = s.actions ∧
    (playAnimationForExistingModel s (.ok g) f).1.actions.lookup clip.name
      = some oldId ∧
    (playAnimationForExistingModel s (.ok g) f).1.activeAction = some s.nextId ∧
    oldId ≠ s.nextId ∧
    (play (playAnimationForExistingModel s (.ok g) f).1 clip.name f2).activeAction
      = some oldId := by
  obtain ⟨-, hactive, -, -, hactions, -⟩ :=
    pAFEM_ok_components s m g clip rest f hm hg
  have hsome : (s.actions.lookup clip.name).isSome = true := by
    rw [hreg]
    rfl
  rw [if_pos hsome] at hactions
  have hlt : oldId < s.nextId := hregwf _ (lookup_mem hreg)
  refine ⟨hactions, ?_, hactive, ne_of_lt hlt, ?_⟩
  · rw [hactions]
    exact hreg
  · simp [play, hactions, hreg]

/-- Witness for C10 on a state whose registry already maps `BallSign` to
handle 0 while the new handle is 1. -/
theorem pAFEM_duplicate_name_registry_witness :
    (playAnimationForExistingModel demoDuplicateState (.ok demoActionAsset)
        (3 / 10)).1.actions = demoDuplicateState.actions ∧
    (playAnimationForExistingModel demoDuplicateState (.ok demoActionAsset)
        (3 / 10)).1.actions.lookup "BallSign" = some 0 ∧
    (playAnimationForExistingModel demoDuplicateState (.ok demoActionAsset)
        (3 / 10)).1.activeAction = some demoDuplicateState.nextId ∧
    (0 : Nat) ≠ demoDuplicateState.nextId ∧
    (play (playAnimationForExistingModel demoDuplicateState
        (.ok demoActionAsset) (3 / 10)).1 "BallSign" (3 / 10)).activeAction
      = some 0 :=
  pAFEM_duplicate_name_registry demoDuplicateState
    { position := Vec3.zero, scale := Vec3.one,
      bmin := Vec3.zero, bmax := ⟨1, 1, 1⟩, visible := true }
    demoActionAsset { name := "BallSign", duration := 2 } [] 0 (3 / 10) (3 / 10)
    rfl rfl rfl (by decide)

/-- C1: for every sign of the static catalogue, with the screen ready
(character loaded, nothing playing, well-formed action bookkeeping),
selecting the sign either resolves — leaving exactly one action, the newly
active one, playing — or rejects — leaving `isPlaying = false` and a
non-empty error string on the screen; and whenever no current model exists,
the underlying call rejects with the "no model loaded" error. -/
theorem playSign_catalogue_behavior (st : ScreenState) (sign : AslSign)
    (world : String → Except String GLTF)
    (hsign : sign ∈ aslSigns)
    (hloaded : st.characterLoaded = true)
    (hnotplaying : st.isPlaying = false)
    (hwf : ∀ q ∈ st.renderer.store, q.1 < st.renderer.nextId)
    (hrun : ∀ q ∈ st.renderer.store, q.2.running = true →
      st.renderer.activeAction = some q.1 ∨
      q.1 ∈ st.renderer.actions.map Prod.snd) :
    ((playAnimationForExistingModel st.renderer
        (world (fixResourcePath (actionPath sign.id))) (3 / 10)).2 = .ok () →
      ∃ nid, (playSign st sign world).renderer.activeAction = some nid ∧
        ∀ q ∈ (playSign st sign world).renderer.store,
          (q.2.running = true ↔ q.1 = nid)) ∧
    (∀ e, (playAnimationForExistingModel st.renderer
        (world (fixResourcePath (actionPath sign.id))) (3 / 10)).2 = .error e →
      (playSign st sign world).isPlaying = false ∧
      ∃ msg, (playSign st sign world).error = some msg ∧ msg ≠ "") ∧
    (st.renderer.currentModel = none →
      (playAnimationForExistingModel st.renderer
        (world (fixResourcePath (actionPath sign.id))) (3 / 10)).2
        = .error "No character model loaded") := by
  have hguard : ¬(st.characterLoaded = false ∨ st.isPlaying = true) := by
    simp [hloaded, hnotplaying]
  refine ⟨?_, ?_, ?_⟩
  · intro hok
    obtain ⟨m, g, clip, rest, hm, hA, hg⟩ := pAFEM_ok_inv hok
    obtain ⟨hactive, huniq⟩ :=
      pAFEM_unique_running st.renderer m g clip rest (3 / 10) hm hg hwf hrun
    rw [← hA] at hactive huniq
    have hr : (playSign st sign world).renderer
        = (playAnimationForExistingModel st.renderer
            (world (fixResourcePath (actionPath sign.id))) (3 / 10)).1 := by
      rw [playSign, if_neg hguard]
      rcases hres : playAnimationForExistingModel st.renderer
          (world (fixResourcePath (actionPath sign.id))) (3 / 10) with ⟨r, res⟩
      cases res <;> simp [hres]
    refine ⟨st.renderer.nextId, ?_, ?_⟩
    · rw [hr]
      exact hactive
    · rw [hr]
      exact huniq
  · intro e herr
    rw [playSign, if_neg hguard]
    rcases hres : playAnimationForExistingModel st.renderer
        (world (fixResourcePath (actionPath sign.id))) (3 / 10) with ⟨r, res⟩
    rw [hres] at herr
    simp only at herr
    subst herr
    simp only [hres]
    refine ⟨trivial, "Failed to play sign: " ++ sign.id, rfl, ?_⟩
    intro hcon
    have hlen := congrArg String.length hcon
    rw [String.length_append] at hlen
    have h21 : ("Failed to play sign: ").length = 21 := by decide
    rw [h21] at hlen
    have h0 : ("" : String).length = 0 := rfl
    rw [h0] at hlen
    omega
  · intro hnone
    rw [pAFEM_no_model st.renderer _ _ hnone]

/-- Witness for C1 on the ready screen over the unit-cube model, selecting
the catalogue sign `Ball` with the action asset resolving to one clip. -/
theorem playSign_catalogue_behavior_witness :
    ((playAnimationForExistingModel demoScreenState.renderer
        (.ok demoActionAsset) (3 / 10)).2 = .ok () →
      ∃ nid, (playSign demoScreenState
          { id := "Ball", label := "Ball",
            description := some "Sign for showing Ball" }
          (fun _ => .ok demoActionAsset)).renderer.activeAction = some nid ∧
        ∀ q ∈ (playSign demoScreenState
            { id := "Ball", label := "Ball",
              description := some "Sign for showing Ball" }
            (fun _ => .ok demoActionAsset)).renderer.store,
          (q.2.running = true ↔ q.1 = nid)) ∧
    (∀ e, (playAnimationForExistingModel demoScreenState.renderer
        (.ok demoActionAsset) (3 / 10)).2 = .error e →
      (playSign demoScreenState
          { id := "Ball", label := "Ball",
            description := some "Sign for showing Ball" }
          (fun _ => .ok demoActionAsset)).isPlaying = false ∧
      ∃ msg, (playSign demoScreenState
          { id := "Ball", label := "Ball",
            description := some "Sign for showing Ball" }
          (fun _ => .ok demoActionAsset)).error = some msg ∧ msg ≠ "") ∧
    (demoScreenState.renderer.currentModel = none →
      (playAnimationForExistingModel demoScreenState.renderer
        (.ok demoActionAsset) (3 / 10)).2
        = .error "No character model loaded") :=
  playSign_catalogue_behavior demoScreenState
    { id := "Ball", label := "Ball", description := some "Sign for showing Ball" }
    (fun _ => .ok demoActionAsset) (by decide) rfl rfl
    (by intro q hq; cases hq) (by intro q hq hr; cases hq)

end SignLingoKids
